import Mathlib

/-!
# Verification development for `openni_ii_normal_estimation.cpp`

The file embeds three parts of the program:

* `inplace_union` (source lines 274-287), the sorted, duplicate-free union of
  two integer vectors, together with the call made by `main`;
* the hand-off of a frame between `cloud_cb` (lines 90-108) and `viz_cb`
  (lines 110-140) through the members `cloud_`, `normals_`, `new_cloud_`
  guarded by `mtx_`;
* `DBSCAN`, `expandCluster` and `regionQuery` (lines 187-239).

Vectors are lists, `int` elements are integers (they are only compared and
copied), and a `shared_ptr` is an `Option` (`none` is the null pointer).
-/

namespace QuadCopter

/-! ## Part 1: `inplace_union` -/

/-- Model of `std::sort (v.begin(), v.end())` on a `std::vector<int>`: the ascending
rearrangement of the elements. -/
def std_sort (v : List Int) : List Int :=
  v.insertionSort (· ≤ ·)

/-- Inner loop of the merge while the head `x` of the first run is fixed:
elements of the second run that are smaller than `x` are emitted; at the first
one that is not, `x` is emitted and the merge goes on (`k`) with the rest `xs`
of the first run. -/
def mergeHead (x : Int) (xs : List Int) (k : List Int → List Int) : List Int → List Int
  | [] => x :: xs
  | y :: ys => if y < x then y :: mergeHead x xs k ys else x :: k (y :: ys)

/-- The merge step of `std::inplace_merge`: the two sorted runs are merged,
an element of the second run being taken only when it is smaller than the
head of the first run (the merge is stable).  See `mergeRuns_cons_cons` for
the usual two-list equation. -/
def mergeRuns : List Int → List Int → List Int
  | [] => fun ys => ys
  | x :: xs => fun ys => mergeHead x xs (mergeRuns xs) ys

/-- Model of `std::inplace_merge (v.begin(), v.begin() + mid, v.end())`: merges the
consecutive runs `[0, mid)` and `[mid, size)` of `v`. -/
def std_inplace_merge (v : List Int) (mid : Nat) : List Int :=
  mergeRuns (v.take mid) (v.drop mid)

/-- The loop of `std::unique`: `x` is the last element kept so far; the next
element is dropped when it equals `x` and becomes the last kept one otherwise. -/
def uniqueFrom (x : Int) : List Int → List Int
  | [] => [x]
  | y :: rest => if x = y then uniqueFrom x rest else x :: uniqueFrom y rest

/-- Model of `v.erase (std::unique (v.begin(), v.end()), v.end())`: of every group of
consecutive equal elements only the first is kept. -/
def std_unique : List Int → List Int
  | [] => []
  | x :: rest => uniqueFrom x rest

/-- The function `inplace_union (a, b)` (lines 274-287).  Both arguments are
references; the result is the pair of their final values `(a, b)`.  The `int`
variable `mid` holds the size of the sorted `a` (vector sizes fit an `int`). -/
def inplace_union (a b : List Int) : List Int × List Int :=
  let a1 := std_sort a                    -- std::sort (a.begin(), a.end());
  let b1 := std_sort b                    -- std::sort (b.begin(), b.end());
  let mid := a1.length                    -- int mid = a.size();
  let a2 := a1 ++ b1                      -- std::copy (b..., std::back_inserter (a));
  let a3 := std_inplace_merge a2 mid      -- std::inplace_merge (...);
  let a4 := std_unique a3                 -- a.erase (std::unique (...), a.end ());
  (a4, b1)

/-- The vectors `main` builds (lines 293-302) and the call of line 304. -/
def main_a : List Int := [1, 4, 3]

/-- The second vector built by `main`. -/
def main_b : List Int := [3, 4, 5]

/-- The value of `(a, b)` in `main` after line 304. -/
def main_union : List Int × List Int := inplace_union main_a main_b

/-! ## Part 2: the frame hand-off (`cloud_cb`, `viz_cb`)

The class is a template over the point type; `P` stands for `PointType` and
`N` for `pcl::Normal`.  The normal estimator and the visualizer belong to the
PCL library: their computations are parameters of the model (`compute`,
`PCLVisualizerOps`).  Every callback returns, next to the new values of the
members, the sequence of lock operations and library calls it performed, in
program order. -/

/-- Model of `pcl::PointCloud<T>`: the header sequence number, the image dimensions
and the points. -/
structure PointCloud (T : Type) where
  seq : Nat
  width : Nat
  height : Nat
  points : List T
deriving DecidableEq

/-- The enumeration `IntegralImageNormalEstimation::NormalEstimationMethod`. -/
inductive NormalEstimationMethod where
  | COVARIANCE_MATRIX
  | AVERAGE_3D_GRADIENT
  | AVERAGE_DEPTH_CHANGE
  | SIMPLE_3D_GRADIENT
deriving DecidableEq

/-- The settings of `pcl::IntegralImageNormalEstimation` the program touches
(lines 81-84) and its input cloud (line 101). -/
structure IntegralImageNormalEstimation (P : Type) where
  normal_estimation_method_ : NormalEstimationMethod
  use_depth_dependent_smoothing_ : Bool
  max_depth_change_factor_ : ℚ
  normal_smoothing_size_ : ℚ
  input_ : Option (PointCloud P)

/-- The call `ne_.setInputCloud (cloud)`. -/
def IntegralImageNormalEstimation.setInputCloud {P : Type}
    (ne : IntegralImageNormalEstimation P) (cloud : Option (PointCloud P)) :
    IntegralImageNormalEstimation P :=
  { ne with input_ := cloud }

/-- The rendering property named on line 130. -/
inductive RenderingProperties where
  | PCL_VISUALIZER_POINT_SIZE
deriving DecidableEq

/-- A lock operation or a library call made by a callback. -/
inductive Event (P N : Type) where
  | mtx_lock
  | mtx_unlock
  | getTime
  | cout_time
  | ne_setInputCloud (cloud : Option (PointCloud P))
  | ne_compute
  | updatePointCloud (cloud : Option (PointCloud P)) (id : String)
  | addPointCloud (cloud : Option (PointCloud P)) (id : String)
  | setPointCloudRenderingProperties (property : RenderingProperties) (value : ℚ) (id : String)
  | resetCameraViewpoint (id : String)
  | removePointCloud (id : String)
  | addPointCloudNormals (cloud : Option (PointCloud P)) (normals : Option (PointCloud N))
      (level : Nat) (scale : ℚ) (id : String)

/-- The member functions of `pcl::visualization::PCLVisualizer` called by
`viz_cb`, acting on a visualizer state `V`. -/
structure PCLVisualizerOps (V P N : Type) where
  updatePointCloud : V → Option (PointCloud P) → String → Bool × V
  addPointCloud : V → Option (PointCloud P) → String → V
  setPointCloudRenderingProperties : V → RenderingProperties → ℚ → String → V
  resetCameraViewpoint : V → String → V
  removePointCloud : V → String → V
  addPointCloudNormals :
    V → Option (PointCloud P) → Option (PointCloud N) → Nat → ℚ → String → V

/-- The data members of the class (lines 243-250) that the callbacks use;
`mtx_` appears through the events `mtx_lock` and `mtx_unlock`. -/
structure OpenNIIntegralImageNormalEstimation (P N : Type) where
  ne_ : IntegralImageNormalEstimation P
  device_id_ : String
  normals_ : Option (PointCloud N)
  cloud_ : Option (PointCloud P)
  new_cloud_ : Bool

/-- The value of the `float` literal `0.02f` (line 83): the binary32 number
nearest to 0.02, which is 10737418 / 2^29. -/
def FLOAT_0_02 : ℚ := 5368709 / 268435456

/-- The value of the `float` literal `0.05f` (line 137): the binary32 number
nearest to 0.05, which is 13421773 / 2^28. -/
def FLOAT_0_05 : ℚ := 13421773 / 268435456

/-- The constructor (lines 76-87): the estimator is configured, both pointers
are null and `new_cloud_` is false. -/
def OpenNIIntegralImageNormalEstimation.construct (P N : Type) (device_id : String) :
    OpenNIIntegralImageNormalEstimation P N :=
  { ne_ :=
      { normal_estimation_method_ := NormalEstimationMethod.SIMPLE_3D_GRADIENT
        use_depth_dependent_smoothing_ := true
        max_depth_change_factor_ := FLOAT_0_02
        normal_smoothing_size_ := 15
        input_ := none }
    device_id_ := device_id
    normals_ := none
    cloud_ := none
    new_cloud_ := false }

/-- The callback `cloud_cb (cloud)` (lines 90-108).  `compute ne` is the normal cloud that
`ne.compute` writes into a fresh output cloud. -/
def cloud_cb {P N : Type} (compute : IntegralImageNormalEstimation P → PointCloud N)
    (self : OpenNIIntegralImageNormalEstimation P N) (cloud : Option (PointCloud P)) :
    OpenNIIntegralImageNormalEstimation P N × List (Event P N) :=
  -- boost::mutex::scoped_lock lock (mtx_);
  -- normals_.reset (new pcl::PointCloud<pcl::Normal>);
  -- double start = pcl::getTime ();
  let ne1 := self.ne_.setInputCloud cloud       -- ne_.setInputCloud (cloud);
  let normals := compute ne1                    -- ne_.compute (*normals_);
  -- double stop = pcl::getTime ();  std::cout << ...;
  -- cloud_ = cloud;  new_cloud_ = true;  the lock is released on return
  ({ self with ne_ := ne1, normals_ := some normals, cloud_ := cloud, new_cloud_ := true },
   [Event.mtx_lock, Event.getTime, Event.ne_setInputCloud cloud, Event.ne_compute,
    Event.getTime, Event.cout_time, Event.mtx_unlock])

/-- The effect on the viewer of the library call an event stands for.  Lock
operations, timing, printing and estimator calls leave the viewer as it is. -/
def PCLVisualizerOps.perform {V P N : Type} (ops : PCLVisualizerOps V P N) (viz : V) :
    Event P N → V
  | Event.updatePointCloud cloud id => (ops.updatePointCloud viz cloud id).2
  | Event.addPointCloud cloud id => ops.addPointCloud viz cloud id
  | Event.setPointCloudRenderingProperties property value id =>
    ops.setPointCloudRenderingProperties viz property value id
  | Event.resetCameraViewpoint id => ops.resetCameraViewpoint viz id
  | Event.removePointCloud id => ops.removePointCloud viz id
  | Event.addPointCloudNormals cloud normals level scale id =>
    ops.addPointCloudNormals viz cloud normals level scale id
  | _ => viz

/-- One step of `viz_cb`: the operation `e` is carried out on the viewer and
appended to the record of operations.  The viewer and the record a callback
returns are both built by this function only. -/
def doCall {V P N : Type} (ops : PCLVisualizerOps V P N) (t : V × List (Event P N))
    (e : Event P N) : V × List (Event P N) :=
  (ops.perform t.1 e, t.2 ++ [e])

/-- Lines 127-132 of `viz_cb`: the cloud is updated in the viewer, or added
when the viewer does not know it yet (`updatePointCloud` returned false). -/
def showCloud {V P N : Type} (ops : PCLVisualizerOps V P N) (t : V × List (Event P N))
    (temp_cloud : Option (PointCloud P)) : V × List (Event P N) :=
  let updated := (ops.updatePointCloud t.1 temp_cloud "OpenNICloud").1
  -- if (!viz.updatePointCloud (temp_cloud, "OpenNICloud"))
  let t1 := doCall ops t (Event.updatePointCloud temp_cloud "OpenNICloud")
  if !updated then
    -- viz.addPointCloud (temp_cloud, "OpenNICloud");
    let t2 := doCall ops t1 (Event.addPointCloud temp_cloud "OpenNICloud")
    -- viz.setPointCloudRenderingProperties (PCL_VISUALIZER_POINT_SIZE, 2, "OpenNICloud");
    let t3 := doCall ops t2 (Event.setPointCloudRenderingProperties
      RenderingProperties.PCL_VISUALIZER_POINT_SIZE 2 "OpenNICloud")
    -- viz.resetCameraViewpoint ("OpenNICloud");
    doCall ops t3 (Event.resetCameraViewpoint "OpenNICloud")
  else
    t1

/-- The callback `viz_cb (viz)` (lines 110-140): an early return while the
cloud or the normals are missing; otherwise both pointers are swapped out of
the members, the cloud is shown and, when `new_cloud_` is set, the normals are
shown and the flag is cleared.  The result is the object, the viewer and the
record of operations. -/
def viz_cb {V P N : Type} (ops : PCLVisualizerOps V P N)
    (self : OpenNIIntegralImageNormalEstimation P N) (viz : V) :
    OpenNIIntegralImageNormalEstimation P N × V × List (Event P N) :=
  let t0 := doCall ops (viz, []) Event.mtx_lock        -- mtx_.lock ();
  if self.cloud_.isNone || self.normals_.isNone then   -- if (!cloud_ || !normals_)
    let t1 := doCall ops t0 Event.mtx_unlock           -- mtx_.unlock ();  return;
    (self, t1.1, t1.2)
  else
    let temp_cloud := self.cloud_                      -- temp_cloud.swap (cloud_);
    let temp_normals := self.normals_                  -- temp_normals.swap (normals_);
    let self1 := { self with cloud_ := none, normals_ := none }
    let t1 := doCall ops t0 Event.mtx_unlock           -- mtx_.unlock ();
    let t2 := showCloud ops t1 temp_cloud
    if self1.new_cloud_ then                           -- if (new_cloud_)
      -- viz.removePointCloud ("normalcloud");
      let t3 := doCall ops t2 (Event.removePointCloud "normalcloud")
      -- viz.addPointCloudNormals (temp_cloud, temp_normals, 5, 0.05f, "normalcloud");
      let t4 := doCall ops t3
        (Event.addPointCloudNormals temp_cloud temp_normals 5 FLOAT_0_05 "normalcloud")
      ({ self1 with new_cloud_ := false }, t4.1, t4.2) -- new_cloud_ = false;
    else
      (self1, t2.1, t2.2)

/-- The clouds a sequence of events hands to the viewer, in order. -/
def shownClouds {P N : Type} : List (Event P N) → List (Option (PointCloud P))
  | [] => []
  | Event.updatePointCloud c _ :: rest => c :: shownClouds rest
  | Event.addPointCloud c _ :: rest => c :: shownClouds rest
  | Event.addPointCloudNormals c _ _ _ _ :: rest => c :: shownClouds rest
  | _ :: rest => shownClouds rest

/-- The normal clouds a sequence of events hands to the viewer, in order. -/
def shownNormals {P N : Type} : List (Event P N) → List (Option (PointCloud N))
  | [] => []
  | Event.addPointCloudNormals _ n _ _ _ :: rest => n :: shownNormals rest
  | _ :: rest => shownNormals rest

/-- Pairs every event with the state of `mtx_` at the moment the event takes
place (`true`: held by the running callback); `held` is the state before the
first event. -/
def withLockState {P N : Type} (held : Bool) : List (Event P N) → List (Event P N × Bool)
  | [] => []
  | Event.mtx_lock :: rest => (Event.mtx_lock, held) :: withLockState true rest
  | Event.mtx_unlock :: rest => (Event.mtx_unlock, held) :: withLockState false rest
  | e :: rest => (e, held) :: withLockState held rest

/-- A call of one of the two callbacks. -/
inductive Call (P : Type) where
  | cloud_cb (cloud : Option (PointCloud P))
  | viz_cb
deriving DecidableEq

/-- The object and the viewer after a sequence of callback invocations, each
run to completion. -/
def runCalls {V P N : Type} (compute : IntegralImageNormalEstimation P → PointCloud N)
    (ops : PCLVisualizerOps V P N) :
    OpenNIIntegralImageNormalEstimation P N → V → List (Call P) →
      OpenNIIntegralImageNormalEstimation P N × V
  | self, viz, [] => (self, viz)
  | self, viz, Call.cloud_cb cloud :: rest =>
    runCalls compute ops (cloud_cb compute self cloud).1 viz rest
  | self, viz, Call.viz_cb :: rest =>
    runCalls compute ops (viz_cb ops self viz).1 (viz_cb ops self viz).2.1 rest

/-- A viewer state for concrete runs: the identifiers of the clouds on
display.  `updatePointCloud` succeeds when the identifier is known. -/
def listViewer (P N : Type) : PCLVisualizerOps (List String) P N :=
  { updatePointCloud := fun v _ id => (decide (id ∈ v), v)
    addPointCloud := fun v _ id => if id ∈ v then v else id :: v
    setPointCloudRenderingProperties := fun v _ _ _ => v
    resetCameraViewpoint := fun v _ => v
    removePointCloud := fun v id => v.filter (fun x => x != id)
    addPointCloudNormals := fun v _ _ _ _ id => if id ∈ v then v else id :: v }

/-- A normal estimator for concrete runs: one normal per input point. -/
def countingEstimator (ne : IntegralImageNormalEstimation Nat) : PointCloud Nat :=
  match ne.input_ with
  | none => { seq := 0, width := 0, height := 0, points := [] }
  | some c => { seq := c.seq, width := c.width, height := c.height,
                points := c.points.map (fun _ => 0) }

/-- A frame with two points. -/
def frameA : PointCloud Nat := { seq := 1, width := 2, height := 1, points := [10, 20] }

/-- Another frame with two points. -/
def frameB : PointCloud Nat := { seq := 2, width := 2, height := 1, points := [30, 40] }

/-- A frame with zero points. -/
def frameEmpty : PointCloud Nat := { seq := 3, width := 0, height := 0, points := [] }

/-- The object after the constructor and one call `cloud_cb (frameA)`. -/
def slotWithFrameA : OpenNIIntegralImageNormalEstimation Nat Nat :=
  (cloud_cb countingEstimator (OpenNIIntegralImageNormalEstimation.construct Nat Nat "")
    (some frameA)).1

/-! ## Part 3: `DBSCAN`, `expandCluster`, `regionQuery`

The three functions are embedded as they are written.  In particular the
conditions on lines 209 and 229 are the assignments `Visited[i]=false` and
`Visited[neighborPts[j]]=false`: the flag is overwritten with `false` and the
condition has the value `false`.  `expandCluster` receives `currentCluster` by
value and `Visited` as a pointer, so of its effects only the writes to
`Visited` reach the caller.  The kd-tree search belongs to the PCL library and
is the parameter `radiusSearch`.  Identifiers the source spells in two ways
(`mynormals`/`myNormals`, `kdPoints`/`KdPoints`, `NeighborPts`/`neighborPts`,
`regionQuery`/`regoinQuery`) are read as the declared name, the `i` of the
main loop as its loop counter, and `mynormals.size()` as the number of points
of the cloud. -/

/-- Model of `pcl::KdTree`: a search structure over its input cloud. -/
structure KdTree (P : Type) where
  input_ : Option (PointCloud P)

/-- The call `kdPoints.setInputCloud (*mynormals, ind)` (line 198). -/
def KdTree.setInputCloud {P : Type} (_kd : KdTree P) (cloud : PointCloud P) : KdTree P :=
  { input_ := some cloud }

/-- Width in bits of `size_t`, the type of `vector::size ()`. -/
def SIZE_BITS : Nat := 64

/-- The conversion of an `int` to `size_t` that takes place when it is
compared with `vector::size ()` (lines 212 and 232). -/
def toSizeT (m : Int) : Nat := (m % (2 : Int) ^ SIZE_BITS).toNat

/-- The C++ expression `Visited[i] = v` used as a condition: `v` is stored in
the array and is the value of the expression. -/
def assignAsCondition (Visited : List Bool) (i : Nat) (v : Bool) : List Bool × Bool :=
  (Visited.set i v, v)

/-- The function `regionQuery (kdPoints, currentPoint, radius)` (lines 187-192): the
indices `k_indicies` filled in by the radius search. -/
def regionQuery {P : Type} (radiusSearch : KdTree P → Nat → ℚ → List Nat)
    (kdPoints : KdTree P) (currentPoint : Nat) (radius : ℚ) : List Nat :=
  radiusSearch kdPoints currentPoint radius

/-- One iteration of the loop of `expandCluster` (lines 229-236) for the
neighbour `nb = NeighborPts[j]`. -/
def expandCluster_step {P : Type} (radiusSearch : KdTree P → Nat → ℚ → List Nat)
    (radius : ℚ) (minPoints : Int) (kdPoints : KdTree P)
    (Visited : List Bool) (nb : Nat) : List Bool :=
  let c := assignAsCondition Visited nb false          -- if(Visited[neighborPts[j]]=false)
  if c.2 then
    let Visited1 := c.1.set nb true                    -- Visited[neighborPts[j]]=true;
    let secondNeighborPts := regionQuery radiusSearch kdPoints nb radius
    if toSizeT minPoints ≤ secondNeighborPts.length then
      Visited1                                         -- (a comment only)
    else
      Visited1
  else
    c.1

/-- The function `expandCluster` (lines 224-239).  The result is the array `Visited` as
the function leaves it, paired with the final value of its own copy of
`currentCluster`, which the caller never sees. -/
def expandCluster {P : Type} (radiusSearch : KdTree P → Nat → ℚ → List Nat)
    (inputInd : Nat) (NeighborPts : List Nat) (currentCluster : List Nat)
    (radius : ℚ) (minPoints : Int) (kdPoints : KdTree P) (Visited : List Bool) :
    List Bool × List Nat :=
  let currentCluster1 := currentCluster ++ [inputInd]  -- currentCluster.push_back(inputInd);
  (NeighborPts.foldl (expandCluster_step radiusSearch radius minPoints kdPoints) Visited,
   currentCluster1)

/-- The local variables of `DBSCAN`. -/
structure DBSCANLocals where
  NeighborPts : List Nat
  Visited : List Bool
  currentCluster : List Nat
  clusters : List (List Nat)
  clusterInd : Int
deriving DecidableEq

/-- The errors a run of `DBSCAN` could end with.  The source contains no
`throw` statement and no check of its parameters, so none is ever raised. -/
inductive DBSCANError where
  | InvalidParameterError
deriving DecidableEq

/-- One iteration of the main loop of `DBSCAN` (lines 209-220). -/
def DBSCAN_step {P : Type} (radiusSearch : KdTree P → Nat → ℚ → List Nat)
    (radius : ℚ) (minPoints : Int) (kdPoints : KdTree P)
    (st : DBSCANLocals) (i : Nat) : DBSCANLocals :=
  let c := assignAsCondition st.Visited i false        -- if(Visited[i]=false)
  if c.2 then
    let Visited1 := c.1.set i true                     -- Visited[i] = true;
    let NeighborPts := regionQuery radiusSearch kdPoints i radius
    if NeighborPts.length < toSizeT minPoints then     -- if(NeighborPts.size()<minPoints)
      { st with Visited := Visited1, NeighborPts := NeighborPts }
    else
      let r := expandCluster radiusSearch i NeighborPts st.currentCluster radius minPoints
        kdPoints Visited1
      { st with
        Visited := r.1
        NeighborPts := NeighborPts
        clusters := st.clusters ++ [st.currentCluster]  -- clusters.push_back(currentCluster);
        clusterInd := st.clusterInd + 1 }               -- clusterInd++;
  else
    { st with Visited := c.1 }

/-- The locals of `DBSCAN` when the main loop is entered (lines 195-206). -/
def DBSCAN_entry (sizeOfData : Nat) : DBSCANLocals :=
  { NeighborPts := []
    Visited := List.replicate sizeOfData false         -- Visited[i]=false; for every i
    currentCluster := []
    clusters := []
    clusterInd := 0 }

/-- The function `DBSCAN (mynormals, radius, minPoints)` (lines 194-222), applied to the
cloud `mynormals` points to.  The function returns `void`; the result is the
value of its locals when it returns. -/
def DBSCAN {P : Type} (radiusSearch : KdTree P → Nat → ℚ → List Nat)
    (mynormals : PointCloud P) (radius : ℚ) (minPoints : Int) :
    Except DBSCANError DBSCANLocals :=
  let kdPoints := (KdTree.mk none).setInputCloud mynormals
  let sizeOfData := mynormals.points.length            -- int sizeOfData = mynormals.size();
  Except.ok
    ((List.range sizeOfData).foldl (DBSCAN_step radiusSearch radius minPoints kdPoints)
      (DBSCAN_entry sizeOfData))

/-- A radius search for concrete runs: every point has the points `0` and `1`
within the radius. -/
def pairSearch (_kd : KdTree Nat) (_i : Nat) (_radius : ℚ) : List Nat := [0, 1]

/-! ## Part 1, proofs -/

theorem mergeRuns_nil_left (ys : List Int) : mergeRuns [] ys = ys := rfl

theorem mergeRuns_nil_right (xs : List Int) : mergeRuns xs [] = xs := by
  cases xs <;> rfl

theorem mergeRuns_cons_cons (x y : Int) (xs ys : List Int) :
    mergeRuns (x :: xs) (y :: ys)
      = if y < x then y :: mergeRuns (x :: xs) ys else x :: mergeRuns xs (y :: ys) := rfl

theorem mem_mergeRuns (z : Int) (xs ys : List Int) :
    z ∈ mergeRuns xs ys ↔ z ∈ xs ∨ z ∈ ys := by
  induction xs generalizing ys with
  | nil => simp [mergeRuns_nil_left]
  | cons x xs ihx =>
    induction ys with
    | nil => simp [mergeRuns_nil_right]
    | cons y ys ihy =>
      rw [mergeRuns_cons_cons]
      by_cases h : y < x
      · simp only [h, if_true, List.mem_cons, ihy]
        tauto
      · simp only [h, if_false, List.mem_cons, ihx]
        tauto

theorem sorted_mergeRuns (xs ys : List Int)
    (hx : List.Sorted (· ≤ ·) xs) (hy : List.Sorted (· ≤ ·) ys) :
    List.Sorted (· ≤ ·) (mergeRuns xs ys) := by
  induction xs generalizing ys with
  | nil => simpa [mergeRuns_nil_left] using hy
  | cons x xs ihx =>
    induction ys with
    | nil => simpa [mergeRuns_nil_right] using hx
    | cons y ys ihy =>
      rw [mergeRuns_cons_cons]
      have hx' := List.sorted_cons.mp hx
      have hy' := List.sorted_cons.mp hy
      by_cases h : y < x
      · simp only [h, if_true]
        refine List.sorted_cons.mpr ⟨?_, ihy hy'.2⟩
        intro z hz
        rcases (mem_mergeRuns z (x :: xs) ys).mp hz with hz | hz
        · rcases List.mem_cons.mp hz with rfl | hz
          · exact le_of_lt h
          · exact le_trans (le_of_lt h) (hx'.1 z hz)
        · exact hy'.1 z hz
      · simp only [h, if_false]
        have hxy : x ≤ y := not_lt.mp h
        refine List.sorted_cons.mpr ⟨?_, ihx (y :: ys) hx'.2 hy⟩
        intro z hz
        rcases (mem_mergeRuns z xs (y :: ys)).mp hz with hz | hz
        · exact hx'.1 z hz
        · rcases List.mem_cons.mp hz with rfl | hz
          · exact hxy
          · exact le_trans hxy (hy'.1 z hz)

theorem mem_uniqueFrom (z x : Int) (l : List Int) :
    z ∈ uniqueFrom x l ↔ z = x ∨ z ∈ l := by
  induction l generalizing x with
  | nil => simp [uniqueFrom]
  | cons y rest ih =>
    by_cases h : x = y
    · subst h
      simp only [uniqueFrom, if_true, ih, List.mem_cons]
      tauto
    · simp only [uniqueFrom, h, if_false, List.mem_cons, ih]

theorem sorted_uniqueFrom (x : Int) (l : List Int)
    (h : List.Sorted (· ≤ ·) (x :: l)) : List.Sorted (· < ·) (uniqueFrom x l) := by
  induction l generalizing x with
  | nil => simp [uniqueFrom]
  | cons y rest ih =>
    have hx := List.sorted_cons.mp h
    have hy := List.sorted_cons.mp hx.2
    by_cases hxy : x = y
    · subst hxy
      simp only [uniqueFrom, if_true]
      exact ih x (List.sorted_cons.mpr ⟨fun b hb => hy.1 b hb, hy.2⟩)
    · simp only [uniqueFrom, hxy, if_false]
      have hlt : x < y := lt_of_le_of_ne (hx.1 y (List.mem_cons_self _ _)) hxy
      refine List.sorted_cons.mpr ⟨?_, ih y hx.2⟩
      intro z hz
      rcases (mem_uniqueFrom z y rest).mp hz with rfl | hz
      · exact hlt
      · exact lt_of_lt_of_le hlt (hy.1 z hz)

theorem mem_std_unique (z : Int) (l : List Int) : z ∈ std_unique l ↔ z ∈ l := by
  cases l with
  | nil => simp [std_unique]
  | cons x rest => simp [std_unique, mem_uniqueFrom]

theorem sorted_std_unique (l : List Int) (h : List.Sorted (· ≤ ·) l) :
    List.Sorted (· < ·) (std_unique l) := by
  cases l with
  | nil => simp [std_unique]
  | cons x rest => exact sorted_uniqueFrom x rest h

theorem sorted_std_sort (v : List Int) : List.Sorted (· ≤ ·) (std_sort v) :=
  List.sorted_insertionSort (· ≤ ·) v

theorem perm_std_sort (v : List Int) : (std_sort v).Perm v :=
  List.perm_insertionSort (· ≤ ·) v

theorem mem_std_sort (z : Int) (v : List Int) : z ∈ std_sort v ↔ z ∈ v :=
  (perm_std_sort v).mem_iff

/-- The first component of `inplace_union a b`, spelled out. -/
theorem inplace_union_fst (a b : List Int) :
    (inplace_union a b).1 = std_unique (mergeRuns (std_sort a) (std_sort b)) := by
  simp [inplace_union, std_inplace_merge]

/-- The second component of `inplace_union a b`, spelled out. -/
theorem inplace_union_snd (a b : List Int) : (inplace_union a b).2 = std_sort b := rfl

/-- C1: after `inplace_union (a, b)` the vector `a` is strictly ascending and
holds exactly the integers that occurred in the original `a` or the original
`b`; for the vectors of `main`, `[1,4,3]` and `[3,4,5]`, it is `[1,3,4,5]`. -/
theorem inplace_union_sorted_dedup_union :
    (∀ a b : List Int,
      List.Sorted (· < ·) (inplace_union a b).1 ∧
      ∀ x : Int, x ∈ (inplace_union a b).1 ↔ x ∈ a ∨ x ∈ b) ∧
    (inplace_union [1, 4, 3] [3, 4, 5]).1 = [1, 3, 4, 5] := by
  refine ⟨fun a b => ⟨?_, ?_⟩, by decide⟩
  · rw [inplace_union_fst]
    exact sorted_std_unique _ (sorted_mergeRuns _ _ (sorted_std_sort a) (sorted_std_sort b))
  · intro x
    rw [inplace_union_fst, mem_std_unique, mem_mergeRuns, mem_std_sort, mem_std_sort]

/-- C10: after `inplace_union (a, b)` the vector `b` is the ascending sort of
the original `b`: sorted, a permutation of it with the same length and the
same multiplicity of every integer, and equal to the original exactly when
the original was already sorted. -/
theorem inplace_union_second_argument_sorted (a b : List Int) :
    List.Sorted (· ≤ ·) (inplace_union a b).2 ∧
    (inplace_union a b).2.Perm b ∧
    (inplace_union a b).2.length = b.length ∧
    (∀ x : Int, (inplace_union a b).2.count x = b.count x) ∧
    ((inplace_union a b).2 = b ↔ List.Sorted (· ≤ ·) b) := by
  rw [inplace_union_snd]
  refine ⟨sorted_std_sort b, perm_std_sort b, (perm_std_sort b).length_eq,
    fun x => (perm_std_sort b).count_eq x, ?_⟩
  constructor
  · intro h
    rw [← h]
    exact sorted_std_sort b
  · intro h
    exact List.Sorted.insertionSort_eq h

/-! ## Part 2, proofs -/

theorem setInputCloud_setInputCloud {P : Type} (ne : IntegralImageNormalEstimation P)
    (c d : Option (PointCloud P)) :
    (ne.setInputCloud c).setInputCloud d = ne.setInputCloud d := rfl

theorem shownClouds_append {P N : Type} (xs ys : List (Event P N)) :
    shownClouds (xs ++ ys) = shownClouds xs ++ shownClouds ys := by
  induction xs with
  | nil => rfl
  | cons e rest ih => cases e <;> simp [shownClouds, ih]

theorem shownNormals_append {P N : Type} (xs ys : List (Event P N)) :
    shownNormals (xs ++ ys) = shownNormals xs ++ shownNormals ys := by
  induction xs with
  | nil => rfl
  | cons e rest ih => cases e <;> simp [shownNormals, ih]

/-- What a take does on a slot that holds a cloud `c` and normals `n` with the
new-data flag set: the members, the viewer and the record of operations. -/
theorem viz_cb_full_slot_eq {V P N : Type} (ops : PCLVisualizerOps V P N)
    (self : OpenNIIntegralImageNormalEstimation P N) (viz : V)
    (c : PointCloud P) (n : PointCloud N)
    (hc : self.cloud_ = some c) (hn : self.normals_ = some n) (hf : self.new_cloud_ = true) :
    viz_cb ops self viz =
      ({ self with cloud_ := none, normals_ := none, new_cloud_ := false },
       ops.addPointCloudNormals
         (ops.removePointCloud
           (if (ops.updatePointCloud viz (some c) "OpenNICloud").1 = true then
              (ops.updatePointCloud viz (some c) "OpenNICloud").2
            else
              ops.resetCameraViewpoint
                (ops.setPointCloudRenderingProperties
                  (ops.addPointCloud (ops.updatePointCloud viz (some c) "OpenNICloud").2
                    (some c) "OpenNICloud")
                  RenderingProperties.PCL_VISUALIZER_POINT_SIZE 2 "OpenNICloud")
                "OpenNICloud")
           "normalcloud")
         (some c) (some n) 5 FLOAT_0_05 "normalcloud",
       [Event.mtx_lock, Event.mtx_unlock, Event.updatePointCloud (some c) "OpenNICloud"] ++
         (if (ops.updatePointCloud viz (some c) "OpenNICloud").1 = true then []
          else [Event.addPointCloud (some c) "OpenNICloud",
                Event.setPointCloudRenderingProperties
                  RenderingProperties.PCL_VISUALIZER_POINT_SIZE 2 "OpenNICloud",
                Event.resetCameraViewpoint "OpenNICloud"]) ++
         [Event.removePointCloud "normalcloud",
          Event.addPointCloudNormals (some c) (some n) 5 FLOAT_0_05 "normalcloud"]) := by
  unfold viz_cb showCloud
  by_cases h : (ops.updatePointCloud viz (some c) "OpenNICloud").1 = true <;>
    simp [h, hc, hn, hf, doCall, PCLVisualizerOps.perform]

/-- The clouds and normals handed to the viewer by a take on a full slot. -/
theorem viz_cb_full_slot {V P N : Type} (ops : PCLVisualizerOps V P N)
    (self : OpenNIIntegralImageNormalEstimation P N) (viz : V)
    (c : PointCloud P) (n : PointCloud N)
    (hc : self.cloud_ = some c) (hn : self.normals_ = some n) (hf : self.new_cloud_ = true) :
    (viz_cb ops self viz).1.cloud_ = none ∧
    (viz_cb ops self viz).1.normals_ = none ∧
    (∀ x ∈ shownClouds (viz_cb ops self viz).2.2, x = some c) ∧
    shownNormals (viz_cb ops self viz).2.2 = [some n] ∧
    Event.updatePointCloud (some c) "OpenNICloud" ∈ (viz_cb ops self viz).2.2 ∧
    Event.addPointCloudNormals (some c) (some n) 5 FLOAT_0_05 "normalcloud"
      ∈ (viz_cb ops self viz).2.2 := by
  rw [viz_cb_full_slot_eq ops self viz c n hc hn hf]
  by_cases h : (ops.updatePointCloud viz (some c) "OpenNICloud").1 = true <;>
    simp [h, shownClouds, shownNormals]

theorem viz_cb_absent {V P N : Type} (ops : PCLVisualizerOps V P N)
    (self : OpenNIIntegralImageNormalEstimation P N) (viz : V)
    (h : self.cloud_ = none ∨ self.normals_ = none) :
    viz_cb ops self viz = (self, viz, [Event.mtx_lock, Event.mtx_unlock]) := by
  unfold viz_cb
  rcases h with h | h <;> simp [h, doCall, PCLVisualizerOps.perform]

/-- C2: after `cloud_cb (S1)` and `cloud_cb (S2)` with no take in between, the
slot holds the cloud of S2 and the normals computed from S2.  The next
`viz_cb` empties the slot and hands the consumer exactly that cloud and those
normals: the viewer it returns is the given viewer after `updatePointCloud`
with the cloud of S2 (followed, when that call reports an unknown cloud, by
`addPointCloud` with the cloud of S2, the point-size setting and the camera
reset), `removePointCloud ("normalcloud")` and `addPointCloudNormals` with the
cloud and the normals of S2; these are all the operations it performs besides
locking and unlocking, and no cloud other than that of S2 is among their
arguments.  The take after it returns early: slot and viewer unchanged, no
viewer call.  So S1 is never handed over. -/
theorem handoff_drop_oldest {V P N : Type}
    (compute : IntegralImageNormalEstimation P → PointCloud N)
    (ops : PCLVisualizerOps V P N)
    (self : OpenNIIntegralImageNormalEstimation P N) (viz : V) (S1 S2 : PointCloud P) :
    (cloud_cb compute (cloud_cb compute self (some S1)).1 (some S2)).1.cloud_ = some S2 ∧
    (cloud_cb compute (cloud_cb compute self (some S1)).1 (some S2)).1.normals_
      = some (compute (self.ne_.setInputCloud (some S2))) ∧
    (viz_cb ops (cloud_cb compute (cloud_cb compute self (some S1)).1 (some S2)).1 viz).1.cloud_
      = none ∧
    (viz_cb ops (cloud_cb compute (cloud_cb compute self (some S1)).1 (some S2)).1 viz).1.normals_
      = none ∧
    (viz_cb ops (cloud_cb compute (cloud_cb compute self (some S1)).1 (some S2)).1 viz).2.1
      =
        ops.addPointCloudNormals
          (ops.removePointCloud
            (if (ops.updatePointCloud viz (some S2) "OpenNICloud").1 = true then
               (ops.updatePointCloud viz (some S2) "OpenNICloud").2
             else
               ops.resetCameraViewpoint
                 (ops.setPointCloudRenderingProperties
                   (ops.addPointCloud (ops.updatePointCloud viz (some S2) "OpenNICloud").2
                     (some S2) "OpenNICloud")
                   RenderingProperties.PCL_VISUALIZER_POINT_SIZE 2 "OpenNICloud")
                 "OpenNICloud")
            "normalcloud")
          (some S2) (some (compute (self.ne_.setInputCloud (some S2)))) 5 FLOAT_0_05 "normalcloud" ∧
    (viz_cb ops (cloud_cb compute (cloud_cb compute self (some S1)).1 (some S2)).1 viz).2.2
      =
        [Event.mtx_lock, Event.mtx_unlock, Event.updatePointCloud (some S2) "OpenNICloud"] ++
          (if (ops.updatePointCloud viz (some S2) "OpenNICloud").1 = true then []
           else [Event.addPointCloud (some S2) "OpenNICloud",
                 Event.setPointCloudRenderingProperties
                   RenderingProperties.PCL_VISUALIZER_POINT_SIZE 2 "OpenNICloud",
                 Event.resetCameraViewpoint "OpenNICloud"]) ++
          [Event.removePointCloud "normalcloud",
           Event.addPointCloudNormals (some S2) (some (compute (self.ne_.setInputCloud (some S2)))) 5 FLOAT_0_05 "normalcloud"] ∧
    (∀ x ∈ shownClouds
        (viz_cb ops (cloud_cb compute (cloud_cb compute self (some S1)).1 (some S2)).1 viz).2.2,
      x = some S2) ∧
    shownNormals
        (viz_cb ops (cloud_cb compute (cloud_cb compute self (some S1)).1 (some S2)).1 viz).2.2
      = [some (compute (self.ne_.setInputCloud (some S2)))] ∧
    Event.updatePointCloud (some S2) "OpenNICloud" ∈
      (viz_cb ops (cloud_cb compute (cloud_cb compute self (some S1)).1 (some S2)).1 viz).2.2 ∧
    Event.addPointCloudNormals (some S2) (some (compute (self.ne_.setInputCloud (some S2))))
        5 FLOAT_0_05 "normalcloud" ∈
      (viz_cb ops (cloud_cb compute (cloud_cb compute self (some S1)).1 (some S2)).1 viz).2.2 ∧
    viz_cb ops
        (viz_cb ops (cloud_cb compute (cloud_cb compute self (some S1)).1 (some S2)).1 viz).1
        (viz_cb ops (cloud_cb compute (cloud_cb compute self (some S1)).1 (some S2)).1 viz).2.1
      = ((viz_cb ops (cloud_cb compute (cloud_cb compute self (some S1)).1 (some S2)).1 viz).1,
         (viz_cb ops (cloud_cb compute (cloud_cb compute self (some S1)).1 (some S2)).1 viz).2.1,
         [Event.mtx_lock, Event.mtx_unlock]) := by
  have hc : (cloud_cb compute (cloud_cb compute self (some S1)).1 (some S2)).1.cloud_
      = some S2 := rfl
  have hn : (cloud_cb compute (cloud_cb compute self (some S1)).1 (some S2)).1.normals_
      = some (compute (self.ne_.setInputCloud (some S2))) := rfl
  have hf : (cloud_cb compute (cloud_cb compute self (some S1)).1 (some S2)).1.new_cloud_
      = true := rfl
  have h := viz_cb_full_slot ops _ viz S2 _ hc hn hf
  have he := viz_cb_full_slot_eq ops _ viz S2 _ hc hn hf
  refine ⟨hc, hn, h.1, h.2.1, ?_, ?_, h.2.2.1, h.2.2.2.1, h.2.2.2.2.1, h.2.2.2.2.2,
    viz_cb_absent ops _ _ (Or.inl h.1)⟩
  · rw [he]
  · rw [he]

/-- C6: when the stored cloud or the stored normals is absent, `viz_cb`
returns at once: the members (stored cloud, stored normals, new-data flag
included) and the viewer are exactly as before, and between taking and
releasing the lock no viewer call is made. -/
theorem viz_cb_empty_slot_noop {V P N : Type} (ops : PCLVisualizerOps V P N)
    (self : OpenNIIntegralImageNormalEstimation P N) (viz : V)
    (h : self.cloud_ = none ∨ self.normals_ = none) :
    (viz_cb ops self viz).1 = self ∧
    (viz_cb ops self viz).2.1 = viz ∧
    (viz_cb ops self viz).2.2 = [Event.mtx_lock, Event.mtx_unlock] := by
  rw [viz_cb_absent ops self viz h]
  exact ⟨rfl, rfl, rfl⟩

/-- Witness for C6: the object right after `cloud_cb` received a null cloud
(normals present, cloud absent), with a viewer showing nothing. -/
theorem viz_cb_empty_slot_noop_witness :
    ((cloud_cb countingEstimator
        (OpenNIIntegralImageNormalEstimation.construct Nat Nat "") none).1.cloud_ = none ∨
      (cloud_cb countingEstimator
        (OpenNIIntegralImageNormalEstimation.construct Nat Nat "") none).1.normals_ = none) ∧
    ((viz_cb (listViewer Nat Nat) (cloud_cb countingEstimator
        (OpenNIIntegralImageNormalEstimation.construct Nat Nat "") none).1 []).1
      = (cloud_cb countingEstimator
        (OpenNIIntegralImageNormalEstimation.construct Nat Nat "") none).1 ∧
     (viz_cb (listViewer Nat Nat) (cloud_cb countingEstimator
        (OpenNIIntegralImageNormalEstimation.construct Nat Nat "") none).1 []).2.1 = [] ∧
     (viz_cb (listViewer Nat Nat) (cloud_cb countingEstimator
        (OpenNIIntegralImageNormalEstimation.construct Nat Nat "") none).1 []).2.2
      = [Event.mtx_lock, Event.mtx_unlock]) :=
  ⟨Or.inl rfl, viz_cb_empty_slot_noop (listViewer Nat Nat) _ [] (Or.inl rfl)⟩

/-- C5, counterexample: with `frameA` published and not yet taken, feeding
`cloud_cb` the zero-point cloud `frameEmpty` does not leave the stored cloud,
the stored normals and the flag as they were: the stored cloud is now the
empty one. -/
theorem empty_frame_replaces_snapshot :
    frameEmpty.points = [] ∧
    slotWithFrameA.cloud_ = some frameA ∧
    ¬ ((cloud_cb countingEstimator slotWithFrameA (some frameEmpty)).1.cloud_
          = slotWithFrameA.cloud_ ∧
       (cloud_cb countingEstimator slotWithFrameA (some frameEmpty)).1.normals_
          = slotWithFrameA.normals_ ∧
       (cloud_cb countingEstimator slotWithFrameA (some frameEmpty)).1.new_cloud_
          = slotWithFrameA.new_cloud_) := by
  refine ⟨rfl, rfl, ?_⟩
  intro h
  have h1 : (some frameEmpty : Option (PointCloud Nat)) = some frameA := h.1
  exact absurd h1 (by decide)

/-- C5, amended: a cloud with zero points is published like any other frame.
After `cloud_cb` the stored cloud is that cloud, the stored normals are the
ones computed from it and the new-data flag is set, whatever the slot held.
The next `viz_cb` empties the slot and hands the consumer that cloud and those
normals: the viewer it returns is the given viewer after `updatePointCloud`
with the empty cloud (followed, when that call reports an unknown cloud, by
`addPointCloud` with it, the point-size setting and the camera reset),
`removePointCloud ("normalcloud")` and `addPointCloudNormals` with the empty
cloud and its normals; no other cloud is among the arguments. -/
theorem empty_frame_is_published {V P N : Type}
    (compute : IntegralImageNormalEstimation P → PointCloud N)
    (ops : PCLVisualizerOps V P N)
    (self : OpenNIIntegralImageNormalEstimation P N) (viz : V) (cloud : PointCloud P)
    (hempty : cloud.points = []) :
    (cloud_cb compute self (some cloud)).1.cloud_ = some cloud ∧
    (cloud_cb compute self (some cloud)).1.normals_
      = some (compute (self.ne_.setInputCloud (some cloud))) ∧
    (cloud_cb compute self (some cloud)).1.new_cloud_ = true ∧
    (viz_cb ops (cloud_cb compute self (some cloud)).1 viz).1.cloud_ = none ∧
    (viz_cb ops (cloud_cb compute self (some cloud)).1 viz).1.normals_ = none ∧
    (viz_cb ops (cloud_cb compute self (some cloud)).1 viz).2.1
      =
        ops.addPointCloudNormals
          (ops.removePointCloud
            (if (ops.updatePointCloud viz (some cloud) "OpenNICloud").1 = true then
               (ops.updatePointCloud viz (some cloud) "OpenNICloud").2
             else
               ops.resetCameraViewpoint
                 (ops.setPointCloudRenderingProperties
                   (ops.addPointCloud (ops.updatePointCloud viz (some cloud) "OpenNICloud").2
                     (some cloud) "OpenNICloud")
                   RenderingProperties.PCL_VISUALIZER_POINT_SIZE 2 "OpenNICloud")
                 "OpenNICloud")
            "normalcloud")
          (some cloud) (some (compute (self.ne_.setInputCloud (some cloud)))) 5 FLOAT_0_05 "normalcloud" ∧
    (viz_cb ops (cloud_cb compute self (some cloud)).1 viz).2.2
      =
        [Event.mtx_lock, Event.mtx_unlock, Event.updatePointCloud (some cloud) "OpenNICloud"] ++
          (if (ops.updatePointCloud viz (some cloud) "OpenNICloud").1 = true then []
           else [Event.addPointCloud (some cloud) "OpenNICloud",
                 Event.setPointCloudRenderingProperties
                   RenderingProperties.PCL_VISUALIZER_POINT_SIZE 2 "OpenNICloud",
                 Event.resetCameraViewpoint "OpenNICloud"]) ++
          [Event.removePointCloud "normalcloud",
           Event.addPointCloudNormals (some cloud) (some (compute (self.ne_.setInputCloud (some cloud)))) 5 FLOAT_0_05 "normalcloud"] ∧
    (∀ x ∈ shownClouds (viz_cb ops (cloud_cb compute self (some cloud)).1 viz).2.2,
      x = some cloud ∧ ∀ c, x = some c → c.points = []) ∧
    Event.updatePointCloud (some cloud) "OpenNICloud" ∈
      (viz_cb ops (cloud_cb compute self (some cloud)).1 viz).2.2 ∧
    shownNormals (viz_cb ops (cloud_cb compute self (some cloud)).1 viz).2.2
      = [some (compute (self.ne_.setInputCloud (some cloud)))] := by
  have hc : (cloud_cb compute self (some cloud)).1.cloud_ = some cloud := rfl
  have hn : (cloud_cb compute self (some cloud)).1.normals_
      = some (compute (self.ne_.setInputCloud (some cloud))) := rfl
  have hf : (cloud_cb compute self (some cloud)).1.new_cloud_ = true := rfl
  have h := viz_cb_full_slot ops _ viz cloud _ hc hn hf
  have he := viz_cb_full_slot_eq ops _ viz cloud _ hc hn hf
  refine ⟨hc, hn, hf, h.1, h.2.1, ?_, ?_, ?_, h.2.2.2.2.1, h.2.2.2.1⟩
  · rw [he]
  · rw [he]
  · intro x hx
    have hx1 := h.2.2.1 x hx
    refine ⟨hx1, ?_⟩
    intro c hxc
    rw [hx1] at hxc
    cases hxc
    exact hempty

/-- Witness for the amended C5: `frameEmpty` fed to the object that holds
`frameA`, with a viewer showing nothing. -/
theorem empty_frame_is_published_witness :
    frameEmpty.points = [] ∧
    ((cloud_cb countingEstimator slotWithFrameA (some frameEmpty)).1.cloud_ = some frameEmpty ∧
     (cloud_cb countingEstimator slotWithFrameA (some frameEmpty)).1.normals_
       = some (countingEstimator (slotWithFrameA.ne_.setInputCloud (some frameEmpty))) ∧
     (cloud_cb countingEstimator slotWithFrameA (some frameEmpty)).1.new_cloud_ = true ∧
     (viz_cb (listViewer Nat Nat) (cloud_cb countingEstimator slotWithFrameA (some frameEmpty)).1 []).1.cloud_ = none ∧
     (viz_cb (listViewer Nat Nat) (cloud_cb countingEstimator slotWithFrameA (some frameEmpty)).1 []).1.normals_ = none ∧
     (viz_cb (listViewer Nat Nat) (cloud_cb countingEstimator slotWithFrameA (some frameEmpty)).1 []).2.1
       =
         (listViewer Nat Nat).addPointCloudNormals
           ((listViewer Nat Nat).removePointCloud
             (if ((listViewer Nat Nat).updatePointCloud [] (some frameEmpty) "OpenNICloud").1 = true then
                ((listViewer Nat Nat).updatePointCloud [] (some frameEmpty) "OpenNICloud").2
              else
                (listViewer Nat Nat).resetCameraViewpoint
                  ((listViewer Nat Nat).setPointCloudRenderingProperties
                    ((listViewer Nat Nat).addPointCloud ((listViewer Nat Nat).updatePointCloud [] (some frameEmpty) "OpenNICloud").2
                      (some frameEmpty) "OpenNICloud")
                    RenderingProperties.PCL_VISUALIZER_POINT_SIZE 2 "OpenNICloud")
                  "OpenNICloud")
             "normalcloud")
           (some frameEmpty) (some (countingEstimator (slotWithFrameA.ne_.setInputCloud (some frameEmpty)))) 5 FLOAT_0_05 "normalcloud" ∧
     (viz_cb (listViewer Nat Nat) (cloud_cb countingEstimator slotWithFrameA (some frameEmpty)).1 []).2.2
       =
         [Event.mtx_lock, Event.mtx_unlock, Event.updatePointCloud (some frameEmpty) "OpenNICloud"] ++
           (if ((listViewer Nat Nat).updatePointCloud [] (some frameEmpty) "OpenNICloud").1 = true then []
            else [Event.addPointCloud (some frameEmpty) "OpenNICloud",
                  Event.setPointCloudRenderingProperties
                    RenderingProperties.PCL_VISUALIZER_POINT_SIZE 2 "OpenNICloud",
                  Event.resetCameraViewpoint "OpenNICloud"]) ++
           [Event.removePointCloud "normalcloud",
            Event.addPointCloudNormals (some frameEmpty) (some (countingEstimator (slotWithFrameA.ne_.setInputCloud (some frameEmpty)))) 5 FLOAT_0_05 "normalcloud"] ∧
     (∀ x ∈ shownClouds (viz_cb (listViewer Nat Nat) (cloud_cb countingEstimator slotWithFrameA (some frameEmpty)).1 []).2.2,
       x = some frameEmpty ∧ ∀ c, x = some c → c.points = []) ∧
     Event.updatePointCloud (some frameEmpty) "OpenNICloud" ∈
       (viz_cb (listViewer Nat Nat) (cloud_cb countingEstimator slotWithFrameA (some frameEmpty)).1 []).2.2 ∧
     shownNormals (viz_cb (listViewer Nat Nat) (cloud_cb countingEstimator slotWithFrameA (some frameEmpty)).1 []).2.2
       = [some (countingEstimator (slotWithFrameA.ne_.setInputCloud (some frameEmpty)))]) :=
  ⟨rfl, empty_frame_is_published countingEstimator (listViewer Nat Nat) slotWithFrameA []
    frameEmpty rfl⟩

/-- C7, counterexample: in the run of `cloud_cb (frameA)` on the freshly
constructed object it is not the case that `ne_.compute` takes place with the
lock released: the lock is held at that moment. -/
theorem compute_runs_under_lock_example :
    ¬ (∀ held : Bool,
        (Event.ne_compute, held) ∈ withLockState false
          (cloud_cb countingEstimator
            (OpenNIIntegralImageNormalEstimation.construct Nat Nat "") (some frameA)).2 →
        held = false) := by
  intro h
  have hmem : ((Event.ne_compute : Event Nat Nat), true) ∈ withLockState false
      (cloud_cb countingEstimator
        (OpenNIIntegralImageNormalEstimation.construct Nat Nat "") (some frameA)).2 := by
    simp [cloud_cb, withLockState]
  exact absurd (h true hmem) (by decide)

/-- C7, amended: `cloud_cb` takes the lock before anything else and releases
it last; every other step of the callback, the call of `ne_.compute` among
them, takes place while the lock is held.  `viz_cb` starts by taking the same
lock. -/
theorem cloud_cb_holds_lock_throughout {V P N : Type}
    (compute : IntegralImageNormalEstimation P → PointCloud N)
    (ops : PCLVisualizerOps V P N)
    (self : OpenNIIntegralImageNormalEstimation P N) (viz : V)
    (cloud : Option (PointCloud P)) :
    (cloud_cb compute self cloud).2.head? = some Event.mtx_lock ∧
    (cloud_cb compute self cloud).2.getLast? = some Event.mtx_unlock ∧
    ((Event.ne_compute : Event P N), true) ∈
      withLockState false (cloud_cb compute self cloud).2 ∧
    (∀ held : Bool,
      ((Event.ne_compute : Event P N), held) ∈
        withLockState false (cloud_cb compute self cloud).2 → held = true) ∧
    (∀ (e : Event P N) (held : Bool),
      (e, held) ∈ withLockState false (cloud_cb compute self cloud).2 →
        held = true ∨ e = Event.mtx_lock) ∧
    (viz_cb ops self viz).2.2.head? = some Event.mtx_lock := by
  refine ⟨rfl, rfl, ?_, ?_, ?_, ?_⟩
  · simp [cloud_cb, withLockState]
  · intro held h
    simp [cloud_cb, withLockState] at h
    exact h
  · intro e held h
    simp [cloud_cb, withLockState] at h
    rcases h with h | h | h | h | h | h | h
    · exact Or.inr h.1
    all_goals exact Or.inl h.2
  · unfold viz_cb showCloud
    by_cases h1 : (self.cloud_.isNone || self.normals_.isNone) = true
    · simp [h1, doCall]
    · by_cases h2 : self.new_cloud_ = true <;>
        by_cases h3 : (ops.updatePointCloud viz self.cloud_ "OpenNICloud").1 = true <;>
          simp [h1, h2, h3, doCall, PCLVisualizerOps.perform]

theorem viz_cb_members {V P N : Type} (ops : PCLVisualizerOps V P N)
    (self : OpenNIIntegralImageNormalEstimation P N) (viz : V) :
    (viz_cb ops self viz).1.ne_ = self.ne_ ∧
    (((viz_cb ops self viz).1.cloud_ = self.cloud_ ∧
        (viz_cb ops self viz).1.normals_ = self.normals_) ∨
      ((viz_cb ops self viz).1.cloud_ = none ∧ (viz_cb ops self viz).1.normals_ = none)) := by
  unfold viz_cb
  by_cases h1 : (self.cloud_.isNone || self.normals_.isNone) = true
  · simp [h1]
  · by_cases h2 : self.new_cloud_ = true <;> simp [h1, h2]

theorem runCalls_paired {V P N : Type}
    (compute : IntegralImageNormalEstimation P → PointCloud N)
    (ops : PCLVisualizerOps V P N) (ne0 : IntegralImageNormalEstimation P)
    (calls : List (Call P)) :
    ∀ (self : OpenNIIntegralImageNormalEstimation P N) (viz : V),
      (∀ x, self.ne_.setInputCloud x = ne0.setInputCloud x) →
      ((self.cloud_ = none ∧ self.normals_ = none) ∨
        ∃ c, self.cloud_ = some c ∧
          self.normals_ = some (compute (ne0.setInputCloud (some c)))) →
      (∀ call ∈ calls, call ≠ Call.cloud_cb none) →
      (((runCalls compute ops self viz calls).1.cloud_ = none ∧
          (runCalls compute ops self viz calls).1.normals_ = none) ∨
        ∃ c, (runCalls compute ops self viz calls).1.cloud_ = some c ∧
          (runCalls compute ops self viz calls).1.normals_
            = some (compute (ne0.setInputCloud (some c)))) := by
  induction calls with
  | nil =>
    intro self viz _ hinv _
    exact hinv
  | cons call rest ih =>
    intro self viz hne hinv hcalls
    have hrest : ∀ call ∈ rest, call ≠ Call.cloud_cb none :=
      fun c hc => hcalls c (List.mem_cons_of_mem _ hc)
    cases call with
    | cloud_cb cloud =>
      cases cloud with
      | none => exact absurd rfl (hcalls _ (List.mem_cons_self _ _))
      | some c =>
        simp only [runCalls]
        apply ih _ _ _ _ hrest
        · intro x
          show (self.ne_.setInputCloud (some c)).setInputCloud x = ne0.setInputCloud x
          rw [setInputCloud_setInputCloud]
          exact hne x
        · right
          refine ⟨c, rfl, ?_⟩
          show some (compute (self.ne_.setInputCloud (some c))) = _
          rw [hne]
    | viz_cb =>
      simp only [runCalls]
      have hm := viz_cb_members ops self viz
      apply ih _ _ _ _ hrest
      · intro x
        rw [hm.1]
        exact hne x
      · rcases hm.2 with hsame | hnone
        · rw [hsame.1, hsame.2]
          exact hinv
        · exact Or.inl hnone

/-- C9: starting from the constructed object, after any finite sequence of
`cloud_cb` calls with non-null clouds and `viz_cb` calls, the stored cloud and
the stored normals are both absent, or both present with the normals being
the ones the estimator computes from that very stored cloud. -/
theorem slot_pairing_invariant {V P N : Type}
    (compute : IntegralImageNormalEstimation P → PointCloud N)
    (ops : PCLVisualizerOps V P N) (device_id : String) (viz : V)
    (calls : List (Call P))
    (hcalls : ∀ call ∈ calls, call ≠ Call.cloud_cb none) :
    ((runCalls compute ops
          (OpenNIIntegralImageNormalEstimation.construct P N device_id) viz calls).1.cloud_ = none ∧
      (runCalls compute ops
          (OpenNIIntegralImageNormalEstimation.construct P N device_id) viz calls).1.normals_
        = none) ∨
    ∃ c,
      (runCalls compute ops
          (OpenNIIntegralImageNormalEstimation.construct P N device_id) viz calls).1.cloud_
        = some c ∧
      (runCalls compute ops
          (OpenNIIntegralImageNormalEstimation.construct P N device_id) viz calls).1.normals_
        = some (compute
            ((OpenNIIntegralImageNormalEstimation.construct P N device_id).ne_.setInputCloud
              (some c))) :=
  runCalls_paired compute ops _ calls _ viz (fun _ => rfl) (Or.inl ⟨rfl, rfl⟩) hcalls

/-- Witness for C9: two frames published, a take, a second take on the empty
slot and a third frame. -/
theorem slot_pairing_invariant_witness :
    (∀ call ∈ [Call.cloud_cb (some frameA), Call.cloud_cb (some frameB), Call.viz_cb,
        Call.viz_cb, Call.cloud_cb (some frameEmpty)], call ≠ Call.cloud_cb none) ∧
    (((runCalls countingEstimator (listViewer Nat Nat)
          (OpenNIIntegralImageNormalEstimation.construct Nat Nat "") []
          [Call.cloud_cb (some frameA), Call.cloud_cb (some frameB), Call.viz_cb,
            Call.viz_cb, Call.cloud_cb (some frameEmpty)]).1.cloud_ = none ∧
      (runCalls countingEstimator (listViewer Nat Nat)
          (OpenNIIntegralImageNormalEstimation.construct Nat Nat "") []
          [Call.cloud_cb (some frameA), Call.cloud_cb (some frameB), Call.viz_cb,
            Call.viz_cb, Call.cloud_cb (some frameEmpty)]).1.normals_ = none) ∨
    ∃ c,
      (runCalls countingEstimator (listViewer Nat Nat)
          (OpenNIIntegralImageNormalEstimation.construct Nat Nat "") []
          [Call.cloud_cb (some frameA), Call.cloud_cb (some frameB), Call.viz_cb,
            Call.viz_cb, Call.cloud_cb (some frameEmpty)]).1.cloud_ = some c ∧
      (runCalls countingEstimator (listViewer Nat Nat)
          (OpenNIIntegralImageNormalEstimation.construct Nat Nat "") []
          [Call.cloud_cb (some frameA), Call.cloud_cb (some frameB), Call.viz_cb,
            Call.viz_cb, Call.cloud_cb (some frameEmpty)]).1.normals_
        = some (countingEstimator
            ((OpenNIIntegralImageNormalEstimation.construct Nat Nat "").ne_.setInputCloud
              (some c)))) :=
  ⟨by decide,
   slot_pairing_invariant countingEstimator (listViewer Nat Nat) "" [] _ (by decide)⟩

/-! ## Part 3, proofs -/

theorem replicate_false_set (n i : Nat) :
    (List.replicate n false).set i false = List.replicate n false := by
  induction n generalizing i with
  | zero => rfl
  | succ k ih =>
    cases i with
    | zero => rfl
    | succ j => simp [List.replicate_succ, ih]

theorem DBSCAN_step_skips {P : Type} (radiusSearch : KdTree P → Nat → ℚ → List Nat)
    (radius : ℚ) (minPoints : Int) (kdPoints : KdTree P) (st : DBSCANLocals) (i : Nat) :
    DBSCAN_step radiusSearch radius minPoints kdPoints st i
      = { st with Visited := st.Visited.set i false } := by
  simp [DBSCAN_step, assignAsCondition]

theorem DBSCAN_loop_fixed {P : Type} (radiusSearch : KdTree P → Nat → ℚ → List Nat)
    (radius : ℚ) (minPoints : Int) (kdPoints : KdTree P) (n : Nat) (is : List Nat) :
    is.foldl (DBSCAN_step radiusSearch radius minPoints kdPoints) (DBSCAN_entry n)
      = DBSCAN_entry n := by
  induction is with
  | nil => rfl
  | cons i rest ih =>
    rw [List.foldl_cons, DBSCAN_step_skips]
    have h : ({ DBSCAN_entry n with Visited := (DBSCAN_entry n).Visited.set i false }
        : DBSCANLocals) = DBSCAN_entry n := by
      simp [DBSCAN_entry, replicate_false_set]
    rw [h, ih]

/-- Every run of `DBSCAN` returns normally with the locals it entered the
main loop with: no flag set, no cluster. -/
theorem DBSCAN_eq_entry {P : Type} (radiusSearch : KdTree P → Nat → ℚ → List Nat)
    (mynormals : PointCloud P) (radius : ℚ) (minPoints : Int) :
    DBSCAN radiusSearch mynormals radius minPoints
      = Except.ok (DBSCAN_entry mynormals.points.length) := by
  simp [DBSCAN, DBSCAN_loop_fixed]

/-- C3, the code at the failing input: for the two-point cloud `frameA` with
every point having two neighbours, radius 1 and `minPoints` 1, point 0 has at
least `minPoints` neighbours, yet `DBSCAN` ends with an empty cluster list, so
point 0 is in no cluster. -/
theorem DBSCAN_core_point_in_no_cluster :
    (1 : Int) ≤
      ((regionQuery pairSearch ((KdTree.mk none).setInputCloud frameA) 0 1).length : Int) ∧
    ∃ r : DBSCANLocals,
      DBSCAN pairSearch frameA 1 1 = Except.ok r ∧
      r.clusters = [] ∧
      ¬ ∃ cl ∈ r.clusters, 0 ∈ cl := by
  refine ⟨by decide, DBSCAN_entry 2, ?_, rfl, ?_⟩
  · exact DBSCAN_eq_entry pairSearch frameA 1 1
  · simp [DBSCAN_entry]

/-- C8, the code at the failing input: on the two-point cloud `frameA` the run
of `DBSCAN` ends with both flags false; and the test of line 209, applied to
an index whose flag is true, leaves that flag false. -/
theorem DBSCAN_ends_with_flags_false :
    (∃ r : DBSCANLocals,
      DBSCAN pairSearch frameA 1 1 = Except.ok r ∧ r.Visited = [false, false]) ∧
    (DBSCAN_step pairSearch 1 1 ((KdTree.mk none).setInputCloud frameA)
      { DBSCAN_entry 2 with Visited := [true, true] } 0).Visited = [false, true] := by
  refine ⟨⟨DBSCAN_entry 2, DBSCAN_eq_entry pairSearch frameA 1 1, rfl⟩, ?_⟩
  rw [DBSCAN_step_skips]
  rfl

/-- C4, counterexample: with radius 0 and `minPoints` 0 the run of `DBSCAN` on
`frameA` does not fail with `InvalidParameterError`; it returns normally. -/
theorem DBSCAN_accepts_zero_parameters :
    DBSCAN pairSearch frameA 0 0 ≠ Except.error DBSCANError.InvalidParameterError := by
  rw [DBSCAN_eq_entry]
  intro h
  cases h

/-- C4, amended: `DBSCAN` checks neither parameter.  Invoked with
`radius <= 0` or `minPoints < 1` it raises no error and returns normally,
having set up one visited flag per input point. -/
theorem DBSCAN_no_parameter_validation {P : Type}
    (radiusSearch : KdTree P → Nat → ℚ → List Nat)
    (mynormals : PointCloud P) (radius : ℚ) (minPoints : Int)
    (hbad : radius ≤ 0 ∨ minPoints < 1) :
    ∃ r : DBSCANLocals,
      DBSCAN radiusSearch mynormals radius minPoints = Except.ok r ∧
      r.Visited.length = mynormals.points.length := by
  have _ := hbad
  exact ⟨DBSCAN_entry mynormals.points.length,
    DBSCAN_eq_entry radiusSearch mynormals radius minPoints, by simp [DBSCAN_entry]⟩

/-- Witness for the amended C4: radius 0 and `minPoints` 0 on `frameA`. -/
theorem DBSCAN_no_parameter_validation_witness :
    ((0 : ℚ) ≤ 0 ∨ (0 : Int) < 1) ∧
    ∃ r : DBSCANLocals,
      DBSCAN pairSearch frameA 0 0 = Except.ok r ∧
      r.Visited.length = frameA.points.length :=
  ⟨Or.inr (by decide), DBSCAN_no_parameter_validation pairSearch frameA 0 0 (Or.inr (by decide))⟩

end QuadCopter
